import Mathlib

/-
Verification of the Subject & Language Classifier of the notes-maker
server (index.js part of the repository).  The external generative-model
calls are modelled by an oracle value per call site: a call either
returns a response string or throws.  All string post-processing is
translated to explicit character-list operations matching the JavaScript
string primitives used by the source (trim, split at a one-character
separator and take the first piece, toLowerCase, includes).
-/

set_option maxHeartbeats 4000000

namespace NotesApp

/-- Result of one call to the external generative model: either the
response text, or a thrown error (promise rejection). -/
inductive GenResult where
  | ok (response : String)
  | err
deriving DecidableEq

/-- Substring occurrence test on character lists, mirroring the JavaScript
String.prototype.includes semantics (the empty needle occurs everywhere). -/
def isSubstr (needle : List Char) : List Char → Bool
  | [] => needle.isEmpty
  | c :: rest => needle.isPrefixOf (c :: rest) || isSubstr needle rest

/-- JavaScript hay.includes(needle). -/
def strIncludes (hay needle : String) : Bool :=
  isSubstr needle.data hay.data

/-- JavaScript String.prototype.trim, over the whitespace characters the
classifier can actually meet (space, tab, carriage return, newline). -/
def trimStr (s : String) : String :=
  ⟨((s.data.dropWhile Char.isWhitespace).reverse.dropWhile Char.isWhitespace).reverse⟩

/-- JavaScript s.split(sep)[0] for a one-character separator: the prefix
of s up to (excluding) the first occurrence of sep. -/
def firstSegment (sep : Char) (s : String) : String :=
  ⟨s.data.takeWhile (fun c => c != sep)⟩

/-- JavaScript s.toLowerCase(); the tables only use ASCII letters. -/
def lowerStr (s : String) : String :=
  ⟨s.data.map Char.toLower⟩

/-- detectLanguage (index.js lines 368-394).  On a successful external
call the response is trimmed, cut at the first newline, cut at the first
period, and trimmed again; a thrown call is caught and absorbed into the
sentinel "unknown".  The text argument only feeds the prompt of the
external call (first 500 characters) and does not influence the
post-processing of the response. -/
def detectLanguage (text : String) (gen : GenResult) : String :=
  match text, gen with
  | _, .ok resp =>
    let detectedLang := trimStr resp
    trimStr (firstSegment '.' (firstSegment '\n' detectedLang))
  | _, .err => "unknown"

/-- The fixed 15-label taxonomy (index.js lines 398-402). -/
def allowedSubjects : List String :=
  ["Mathematics","Physics","Chemistry","Biology","Programming",
   "Computer Science","History","Geography","Literature","Language",
   "Art","Music","Sports","Entertainment","General"]

/-- The synonym map (index.js lines 404-425), in insertion order, which is
the iteration order of Object.entries for string keys. -/
def synonyms : List (String × String) :=
  [("computer science", "Computer Science"),
   ("cs", "Computer Science"),
   ("coding", "Programming"),
   ("programming", "Programming"),
   ("program", "Programming"),
   ("math", "Mathematics"),
   ("mathematics", "Mathematics"),
   ("physics", "Physics"),
   ("chemistry", "Chemistry"),
   ("biology", "Biology"),
   ("history", "History"),
   ("geography", "Geography"),
   ("literature", "Literature"),
   ("language", "Language"),
   ("linguistics", "Language"),
   ("art", "Art"),
   ("music", "Music"),
   ("sports", "Sports"),
   ("entertainment", "Entertainment"),
   ("general", "General")]

/-- The keyword table (index.js lines 427-536), in insertion order,
transcribed verbatim including duplicates (Chemistry lists "enthalpy"
twice) and the all-uppercase entries of Programming.  It has entries for
14 of the 15 taxonomy labels: "General" has no keyword list. -/
def keywordMap : List (String × List String) :=
  [("Mathematics",
    ["integral","derivative","algebra","calculus","theorem","matrix","probability","geometry","trigonometry",
     "statistics","differential equations","vector","tensor","limit","set theory","number theory","topology",
     "combinatorics","prime","logarithm","exponential","polynomial","inequality","function","graph theory",
     "optimization","linear algebra","stochastic","random variable","bayesian","euclidean","non-euclidean",
     "metric","proof","axiom","lemma","corollary","sequence","series","p-adic","symmetry","group theory",
     "ring","field","manifold","integrable","partial derivative","gradient","divergence","curl"]),
   ("Physics",
    ["velocity","force","quantum","relativity","particle","energy","momentum","thermodynamics","optics",
     "mass","acceleration","friction","gravity","electromagnetism","wave","frequency","amplitude","spin",
     "string theory","boson","fermion","neutrino","photon","entropy","enthalpy","pressure","fluid dynamics",
     "nuclear","atomic","collision","radiation","magnetism","capacitance","resistance","superconductivity",
     "black hole","cosmology","astrophysics","inertia","scalar","vector","field","higgs","dark matter",
     "dark energy","interference","diffraction","relativistic"]),
   ("Chemistry",
    ["molecule","reaction","chemical","atom","bond","ph","acid","oxidation","synthesis",
     "catalyst","organic","inorganic","covalent","ionic","solution","solvent","solute","concentration",
     "stoichiometry","thermochemistry","enthalpy","electrons","orbitals","periodic table","isotope",
     "polymer","crystal","precipitate","titration","spectroscopy","chromatography","equilibrium",
     "buffer","alkaline","halogen","transition metal","electrochemistry","redox","molarity","kinetics",
     "enthalpy","hydrocarbon","ester","amine"]),
   ("Biology",
    ["cell","organism","evolution","dna","protein","genome","photosynthesis","mitosis",
     "meiosis","enzyme","chromosome","ribosome","mutation","gene","genetics","epigenetics",
     "ecosystem","bacteria","virus","fungi","microbe","adaptation","natural selection","anatomy",
     "physiology","immune system","respiration","metabolism","hormone","organ","species","taxonomy",
     "reproduction","biosphere","ecology","biome","cloning","biotechnology","neuron","synapse",
     "membrane","cytoplasm","mitochondria","chloroplast"]),
   ("Programming",
    ["function","variable","loop","algorithm","code","compile","runtime","bug","debug",
     "class","object","inheritance","polymorphism","interface","recursion","pointer","array","list",
     "dictionary","hashmap","framework","library","module","package","thread","concurrency","parallel",
     "asynchronous","promise","exception","error","syntax","interpreter","compiler","optimization",
     "API","REST","JSON","XML","version control","git","regex","IDE","container","virtual machine"]),
   ("Computer Science",
    ["computer","algorithm","data structure","database","machine learning","computing","cpu","gpu",
     "compiler theory","operating system","network","protocol","distributed system","cloud","virtualization",
     "encryption","cryptography","complexity","big o","neural network","ai","deep learning","nlp",
     "data mining","information theory","storage","cache","parallelism","graph","tree","binary","hashing",
     "blockchain","cybersecurity","quantum computing","software engineering","microarchitecture"]),
   ("History",
    ["war","empire","revolution","histor","ancient","medieval","colonial",
     "civilization","dynasty","treaty","monarchy","republic","conquest","military","battle","renaissance",
     "industrial","cold war","world war","enlightenment","pharaoh","archaeology","imperialism",
     "feudalism","constitution","reform","rebellion","independence","exploration","migration",
     "cultural heritage","chronicle","historic event"]),
   ("Geography",
    ["continent","country","climate","mountain","river","latitude","longitude","topography",
     "desert","ocean","island","plate tectonics","weather","region","urban","rural","population",
     "ecosystem","rainforest","volcano","earthquake","map","cartography","habitat","biome",
     "altitude","sea level","landform","delta","canyon","valley","glacier"]),
   ("Literature",
    ["novel","poem","poetry","literature","character","narrative","prose",
     "metaphor","allegory","symbolism","theme","plot","drama","tragedy","comedy","author","genre",
     "fiction","nonfiction","myth","legend","epic","short story","rhetoric","dialogue",
     "narrator","memoir","biography","autobiography","manuscript","allusion","satire","imagery"]),
   ("Language",
    ["grammar","vocabulary","sentence","syntax","linguistics","translation",
     "phonetics","phonology","morphology","semantics","pragmatics","dialect","accent","lexicon",
     "conjugation","declension","orthography","writing system","etymology","discourse","phrase",
     "idiom","bilingual","multilingual","pronunciation"]),
   ("Art",
    ["painting","sculpture","canvas","gallery","museum","visual",
     "aesthetics","portrait","landscape","abstract","expressionism","realism","surrealism","impressionism",
     "installation","performance art","fine art","brushstroke","composition","color theory","perspective",
     "illustration","sketch","modern art","contemporary art","exhibit"]),
   ("Music",
    ["melody","harmony","rhythm","instrument","composer","song","audio",
     "pitch","tempo","tone","timbre","scale","chord","genre","orchestra","symphony","opera","choir",
     "band","beat","lyrics","arrangement","composition","improvisation","acoustic","electronic",
     "soundtrack","mixing","recording","notation","conductor","performance"]),
   ("Sports",
    ["tournament","score","player","match","athlete","game","league",
     "championship","coach","training","stadium","team","referee","offense","defense","tactics",
     "strategy","injury","endurance","competition","sportsmanship","record","ranking","event",
     "marathon","sprint","ball","equipment","playoff","fitness"]),
   ("Entertainment",
    ["movie","film","television","celebrity","show","entertainment",
     "series","episode","director","actor","actress","script","screenplay","animation","cartoon",
     "streaming","documentary","thriller","comedy","drama","action","cinema","franchise",
     "soundtrack","visual effects","special effects","broadcast","media","trailer"])]

/-- normalizeDetected inside detectSubject (index.js lines 539-545): null
for a falsy (empty) raw response; otherwise strip straight and smart
quotes, trim, cut at the first newline, cut at the first period, trim. -/
def normalizeDetected (raw : String) : Option String :=
  if raw == "" then none
  else
    let s := trimStr ⟨raw.data.filter
      (fun c => c != '"' && c != '“' && c != '”' && c != '‘' && c != '’')⟩
    some (trimStr (firstSegment '.' (firstSegment '\n' s)))

/-- Heuristic score of one subject (index.js lines 571-579): the number of
entries of its keyword list that occur as substrings of the lower-cased
input text.  Keywords are matched verbatim (not lower-cased themselves),
empty keywords are skipped, duplicates count twice. -/
def subjectScore (text : String) (keywords : List String) : Nat :=
  (keywords.filter (fun kw => kw != "" && strIncludes (lowerStr text) kw)).length

/-- The scores object of detectSubject as an association list in
keywordMap insertion order, which is the Object.entries iteration
order. -/
def scoresList (text : String) : List (String × Nat) :=
  keywordMap.map (fun p => (p.1, subjectScore text p.2))

/-- Stable insertion into a list already sorted by score descending: the
inserted element goes before every element of equal or smaller score,
because in sortDesc it always originates earlier in the unsorted list. -/
def insertDesc (x : String × Nat) : List (String × Nat) → List (String × Nat)
  | [] => [x]
  | y :: ys => if y.2 ≤ x.2 then x :: y :: ys else y :: insertDesc x ys

/-- Stable descending sort by score.  Array.prototype.sort with comparator
(a, b) => b[1] - a[1] is a stable descending sort, and a stable sort
under a total preorder has a unique output, so this insertion sort
computes exactly the sortedScores array of index.js line 580. -/
def sortDesc : List (String × Nat) → List (String × Nat)
  | [] => []
  | x :: t => insertDesc x (sortDesc t)

/-- sortedScores[0] with the JS default [null, 0] (index.js lines
581-583); the null label of the default is rendered as the empty string,
which is never a taxonomy label, and the default is unreachable because
keywordMap is nonempty. -/
def heuristicBestPair (text : String) : String × Nat :=
  ((sortDesc (scoresList text)).head?).getD ("", 0)

/-- scores[m] with JS fallback 0 for an absent key (index.js line 611). -/
def lookupScore (scores : List (String × Nat)) (m : String) : Nat :=
  ((scores.find? (fun p => p.1 == m)).map Prod.snd).getD 0

/-- Normalization of the cleaned model response into the taxonomy
(index.js lines 586-607): skipped entirely when the cleaned response is
falsy (null or empty); otherwise exact case-insensitive match against the
taxonomy, then containment of a taxonomy label inside the cleaned
response, then containment of a synonym key, first match wins; null when
nothing matches. -/
def modelMappedOf : Option String → Option String
  | none => none
  | some c =>
    if c == "" then none
    else
      match allowedSubjects.find? (fun s => lowerStr s == lowerStr c) with
      | some s => some s
      | none =>
        match allowedSubjects.find? (fun s => strIncludes (lowerStr c) (lowerStr s)) with
        | some s => some s
        | none =>
          match synonyms.find? (fun kv => strIncludes (lowerStr c) kv.1) with
          | some kv => some kv.2
          | none => none

/-- Body of detectSubject after a successful external call (index.js
lines 547-630): trim the response, normalize it, always compute the
heuristic scores over the full input text, then apply the voting rule. -/
def detectSubjectOk (text resp : String) : String :=
  match modelMappedOf (normalizeDetected (trimStr resp)) with
  | some m =>
    if 2 ≤ (heuristicBestPair text).2 ∧ (heuristicBestPair text).1 ≠ m ∧
       lookupScore (scoresList text) m < (heuristicBestPair text).2
    then (heuristicBestPair text).1 else m
  | none =>
    if 0 < (heuristicBestPair text).2 then (heuristicBestPair text).1 else "General"

/-- detectSubject (index.js lines 397-635): the catch branch absorbs a
thrown external call into the sentinel "General". -/
def detectSubject (text : String) (gen : GenResult) : String :=
  match gen with
  | .ok resp => detectSubjectOk text resp
  | .err => "General"

/-- The retry trigger of the text branch (index.js line 647): the result
is "unknown", or contains the literal substring "English", or contains
"##". -/
def suspicious (lang : String) : Bool :=
  lang == "unknown" || strIncludes lang "English" || strIncludes lang "##"

/-- Kind of an external detection call made by the endpoint. -/
inductive CallKind where
  | lang
  | subj
deriving DecidableEq

/-- One external detection call, recording which detector was invoked and
with which input text. -/
structure Call where
  kind : CallKind
  input : String
deriving DecidableEq

/-- Detection phase of the text branch of the /generate-notes endpoint
(index.js lines 637-651): detect the language, detect the subject, and if
the language result is suspicious re-run language detection exactly once
on the same content, the retry result replacing the first.  Oracle slots:
0 first language call, 1 subject call, 2 retry language call.  The third
component records every detection call that was issued, in order. -/
def textDetectionPhase (content : String) (o : Nat → GenResult) :
    String × String × List Call :=
  if suspicious (detectLanguage content (o 0)) then
    (detectLanguage content (o 2), detectSubject content (o 1),
     [⟨CallKind.lang, content⟩, ⟨CallKind.subj, content⟩, ⟨CallKind.lang, content⟩])
  else
    (detectLanguage content (o 0), detectSubject content (o 1),
     [⟨CallKind.lang, content⟩, ⟨CallKind.subj, content⟩])

/-- Detection phase of the audio branch when the content is transcript
text rather than an uploaded file (index.js lines 685-690): one language
call and one subject call; this branch has no retry step. -/
def audioTranscriptDetectionPhase (content : String) (o : Nat → GenResult) :
    String × String × List Call :=
  (detectLanguage content (o 0), detectSubject content (o 1),
   [⟨CallKind.lang, content⟩, ⟨CallKind.subj, content⟩])

/-- The note record assembled by the endpoint (index.js lines 783-789)
and echoed in its JSON response. -/
structure NoteData where
  input_type : String
  generated_notes : String
  detected_language : String
  detected_subject : String
  original_content : String
deriving DecidableEq

/-- targetLanguage (index.js line 755): the detected language when it is
truthy and different from "unknown", otherwise "English". -/
def targetLanguageOf (lang : String) : String :=
  if lang != "" && lang != "unknown" then lang else "English"

/-- Language-correction pass (index.js lines 756-777): on success, the
validated text replaces the notes when its trim is nonempty; a thrown
call is absorbed and the original notes are kept. -/
def validationStep (notes : String) (g : GenResult) : String :=
  match g with
  | .ok v => if trimStr v != "" then trimStr v else notes
  | .err => notes

/-- Text branch of the /generate-notes endpoint, from detection to the
assembled note record.  Oracle slots: 0 language, 1 subject, 2 language
retry, 3 primary generation, 4 language-correction pass.  A thrown
primary generation is a hard failure (the endpoint answers 500 and no
note exists), modelled as none. -/
def generateNotesText (content : String) (o : Nat → GenResult) : Option NoteData :=
  match o 3 with
  | .err => none
  | .ok notes0 =>
    some { input_type := "text",
           generated_notes := validationStep notes0 (o 4),
           detected_language := targetLanguageOf (textDetectionPhase content o).1,
           detected_subject := (textDetectionPhase content o).2.1,
           original_content := content }

/-- Audio branch with transcript text: as the text branch but with the
retry-free detection phase. -/
def generateNotesAudioTranscript (content : String) (o : Nat → GenResult) :
    Option NoteData :=
  match o 3 with
  | .err => none
  | .ok notes0 =>
    some { input_type := "audio",
           generated_notes := validationStep notes0 (o 4),
           detected_language := targetLanguageOf (audioTranscriptDetectionPhase content o).1,
           detected_subject := (audioTranscriptDetectionPhase content o).2.1,
           original_content := content }

/-- Audio branch with an uploaded file (index.js lines 671-684): no
detection call is made, detectedLanguage keeps its initial "unknown" and
detectedSubject its initial "General"; the original content is recorded
as the file name. -/
def generateNotesAudioFile (filename : String) (o : Nat → GenResult) :
    Option NoteData :=
  match o 3 with
  | .err => none
  | .ok notes0 =>
    some { input_type := "audio",
           generated_notes := validationStep notes0 (o 4),
           detected_language := targetLanguageOf "unknown",
           detected_subject := "General",
           original_content := filename }

/-- Written after the words of the spec for comparison with the code:
the first pair reaching the maximal score in iteration order (the label
with the highest count, ties won by the earlier entry). -/
def specFirstMax : List (String × Nat) → Option (String × Nat)
  | [] => none
  | x :: t =>
    match specFirstMax t with
    | none => some x
    | some y => if y.2 ≤ x.2 then some x else some y

/-- Written after the words of the amended claim: per-label scores count
the keywords occurring verbatim as substrings of the lower-cased text. -/
def specScoresList (text : String) : List (String × Nat) :=
  keywordMap.map (fun p =>
    (p.1, p.2.countP (fun kw => kw != "" && strIncludes (lowerStr text) kw)))

/-- Written after the words of claim C3 as stated: per-label scores count
the keywords occurring as case-insensitive substrings of the text, that
is, with the keyword lower-cased as well. -/
def claimScoresList (text : String) : List (String × Nat) :=
  keywordMap.map (fun p =>
    (p.1, p.2.countP (fun kw => strIncludes (lowerStr text) (lowerStr kw))))

/-- Top heuristic pair under the scoring of claim C3 as stated. -/
def claimHeuristicTop (text : String) : String × Nat :=
  (specFirstMax (claimScoresList text)).getD ("", 0)

/-- Top heuristic pair under the amended (verbatim-keyword) scoring and
the first-reaching-the-max tie-break of the spec. -/
def specHeuristicTop (text : String) : String × Nat :=
  (specFirstMax (specScoresList text)).getD ("", 0)

theorem mem_of_head?_eq_some {α : Type} {l : List α} {y : α}
    (h : l.head? = some y) : y ∈ l := by
  cases l with
  | nil => cases h
  | cons a t =>
    injection h with h
    subst h
    exact List.mem_cons_self a t

theorem insertDesc_ne_nil (x : String × Nat) (l : List (String × Nat)) :
    insertDesc x l ≠ [] := by
  cases l with
  | nil => simp [insertDesc]
  | cons y ys =>
    unfold insertDesc
    split <;> simp

theorem sortDesc_eq_nil {l : List (String × Nat)} (h : sortDesc l = []) :
    l = [] := by
  cases l with
  | nil => rfl
  | cons x t => exact absurd h (insertDesc_ne_nil x (sortDesc t))

theorem mem_insertDesc {y x : String × Nat} {l : List (String × Nat)}
    (h : y ∈ insertDesc x l) : y = x ∨ y ∈ l := by
  induction l with
  | nil =>
    simp [insertDesc] at h
    exact Or.inl h
  | cons z zs ih =>
    unfold insertDesc at h
    split at h
    · rcases List.mem_cons.mp h with h1 | h1
      · exact Or.inl h1
      · exact Or.inr h1
    · rcases List.mem_cons.mp h with h1 | h1
      · exact Or.inr (h1 ▸ List.mem_cons_self z zs)
      · rcases ih h1 with h2 | h2
        · exact Or.inl h2
        · exact Or.inr (List.mem_cons_of_mem z h2)

theorem mem_sortDesc {y : String × Nat} {l : List (String × Nat)}
    (h : y ∈ sortDesc l) : y ∈ l := by
  induction l with
  | nil => simp [sortDesc] at h
  | cons x t ih =>
    unfold sortDesc at h
    rcases mem_insertDesc h with h1 | h1
    · exact h1 ▸ List.mem_cons_self x t
    · exact List.mem_cons_of_mem x (ih h1)

theorem head?_insertDesc (x : String × Nat) (l : List (String × Nat)) :
    (insertDesc x l).head? =
      match l.head? with
      | none => some x
      | some y => if y.2 ≤ x.2 then some x else some y := by
  cases l with
  | nil => rfl
  | cons y ys =>
    by_cases h : y.2 ≤ x.2
    · simp [insertDesc, h]
    · simp [insertDesc, h]

theorem head?_sortDesc (l : List (String × Nat)) :
    (sortDesc l).head? = specFirstMax l := by
  induction l with
  | nil => rfl
  | cons x t ih =>
    show (insertDesc x (sortDesc t)).head? = specFirstMax (x :: t)
    rw [head?_insertDesc, ih]
    rfl

theorem scoresList_ne_nil (text : String) : scoresList text ≠ [] := by
  unfold scoresList
  intro h
  have h2 := congrArg List.length h
  rw [List.length_map] at h2
  exact absurd h2 (by decide)

theorem heuristicBestPair_mem (text : String) :
    heuristicBestPair text ∈ scoresList text := by
  unfold heuristicBestPair
  cases hs : sortDesc (scoresList text) with
  | nil => exact absurd (sortDesc_eq_nil hs) (scoresList_ne_nil text)
  | cons y ys =>
    simp only [List.head?_cons, Option.getD_some]
    have hy : y ∈ sortDesc (scoresList text) := by
      rw [hs]
      exact List.mem_cons_self y ys
    exact mem_sortDesc hy

theorem heuristicTop_mem_keys (text : String) :
    (heuristicBestPair text).1 ∈ keywordMap.map Prod.fst := by
  have h := heuristicBestPair_mem text
  unfold scoresList at h
  rcases List.mem_map.mp h with ⟨p, hp, he⟩
  rw [← he]
  exact List.mem_map.mpr ⟨p, hp, rfl⟩

theorem keys_sub_allowed : ∀ s ∈ keywordMap.map Prod.fst, s ∈ allowedSubjects := by
  decide

theorem general_not_key : "General" ∉ keywordMap.map Prod.fst := by
  decide

theorem synonyms_snd_sub : ∀ p ∈ synonyms, p.2 ∈ allowedSubjects := by
  decide

theorem modelMappedOf_mem {c : Option String} {m : String}
    (h : modelMappedOf c = some m) : m ∈ allowedSubjects := by
  cases c with
  | none => cases h
  | some s =>
    simp only [modelMappedOf] at h
    split at h
    · cases h
    · split at h
      · rename_i x heq
        injection h with h
        subst h
        exact List.mem_of_find?_eq_some heq
      · split at h
        · rename_i x heq
          injection h with h
          subst h
          exact List.mem_of_find?_eq_some heq
        · split at h
          · rename_i kv heq
            injection h with h
            subst h
            exact synonyms_snd_sub kv (List.mem_of_find?_eq_some heq)
          · cases h

theorem targetLanguageOf_spec (lang : String) :
    targetLanguageOf lang ≠ "unknown" ∧
    (lang ≠ "" → lang ≠ "unknown" → targetLanguageOf lang = lang) ∧
    ((lang = "" ∨ lang = "unknown") → targetLanguageOf lang = "English") := by
  by_cases h1 : lang = ""
  · subst h1
    refine ⟨by decide, fun h _ => absurd rfl h, fun _ => by decide⟩
  · by_cases h2 : lang = "unknown"
    · subst h2
      refine ⟨?_, fun _ h => absurd rfl h, fun _ => ?_⟩ <;> decide
    · have hc : (lang != "" && lang != "unknown") = true := by
        simp [bne_iff_ne, h1, h2]
      refine ⟨?_, fun _ _ => ?_, fun hor => ?_⟩
      · unfold targetLanguageOf
        rw [hc]
        simpa using h2
      · unfold targetLanguageOf
        rw [hc]
        rfl
      · rcases hor with h | h
        · exact absurd h h1
        · exact absurd h h2

/-- C1: for every input text and every outcome of the external call,
detectSubject returns one of the 15 taxonomy labels — on the model-vote
return, the heuristic return, the General fallback and the error branch
alike — never any other string. -/
theorem c1_detectSubject_in_taxonomy (text : String) (gen : GenResult) :
    detectSubject text gen ∈ allowedSubjects := by
  cases gen with
  | err =>
    show "General" ∈ allowedSubjects
    decide
  | ok resp =>
    show detectSubjectOk text resp ∈ allowedSubjects
    have hb : (heuristicBestPair text).1 ∈ allowedSubjects :=
      keys_sub_allowed _ (heuristicTop_mem_keys text)
    unfold detectSubjectOk
    obtain ⟨b, hbp⟩ : ∃ b, heuristicBestPair text = b := ⟨_, rfl⟩
    obtain ⟨sc, hsc⟩ : ∃ sc, scoresList text = sc := ⟨_, rfl⟩
    rw [hbp] at hb
    rw [hbp, hsc]
    split
    · rename_i m hm
      have hma := modelMappedOf_mem hm
      split
      · exact hb
      · exact hma
    · split
      · exact hb
      · decide

/-- C2: the vote-combining rule of detectSubject.  When the normalized
model vote yields a label M, the heuristic top label H with score s is
returned instead of M exactly when H differs from M, s is at least 2 and
s strictly exceeds the heuristic score of M itself; otherwise M is
returned.  When no model label was obtained, H is returned if s is
positive and "General" otherwise. -/
theorem c2_detectSubject_decision (text resp : String) :
    (∀ m, modelMappedOf (normalizeDetected (trimStr resp)) = some m →
      detectSubjectOk text resp =
        if (heuristicBestPair text).1 ≠ m ∧ 2 ≤ (heuristicBestPair text).2 ∧
           lookupScore (scoresList text) m < (heuristicBestPair text).2
        then (heuristicBestPair text).1 else m) ∧
    (modelMappedOf (normalizeDetected (trimStr resp)) = none →
      detectSubjectOk text resp =
        if 0 < (heuristicBestPair text).2
        then (heuristicBestPair text).1 else "General") := by
  constructor
  · intro m hm
    unfold detectSubjectOk
    rw [hm]
    exact if_congr ⟨fun ⟨a, b, c⟩ => ⟨b, a, c⟩, fun ⟨a, b, c⟩ => ⟨b, a, c⟩⟩ rfl rfl
  · intro hm
    unfold detectSubjectOk
    rw [hm]

theorem c2_detectSubject_decision_witness :
    (detectSubjectOk "" "Physics" =
      if (heuristicBestPair "").1 ≠ "Physics" ∧ 2 ≤ (heuristicBestPair "").2 ∧
         lookupScore (scoresList "") "Physics" < (heuristicBestPair "").2
      then (heuristicBestPair "").1 else "Physics") ∧
    (detectSubjectOk "" "blah" =
      if 0 < (heuristicBestPair "").2
      then (heuristicBestPair "").1 else "General") :=
  ⟨(c2_detectSubject_decision "" "Physics").1 "Physics" (by decide),
   (c2_detectSubject_decision "" "blah").2 (by decide)⟩

/-- C3 counterexample: the claim describes the heuristic score as the
number of keywords occurring as case-insensitive substrings of the text,
but the code lower-cases only the text, not the keyword, so the
all-uppercase Programming keywords JSON, XML and API can never match.  On
the text "JSON XML API" the case-insensitive reading gives Programming
score 3 and top label Programming, while the code computes Programming
score 0 and top label Mathematics with score 0. -/
theorem c3_counterexample :
    claimHeuristicTop "JSON XML API" ≠ heuristicBestPair "JSON XML API" ∧
    lookupScore (scoresList "JSON XML API") "Programming" = 0 ∧
    lookupScore (claimScoresList "JSON XML API") "Programming" = 3 := by
  decide

/-- C3 amended: the heuristic vote is computed over the full lower-cased
input text; each score counts the keywords of the label occurring
verbatim as substrings of that lower-cased text (so matching is
case-insensitive only for all-lowercase keywords), and the top of the
stable descending sort is exactly the first label reaching the maximal
score in keyword-table declaration order. -/
theorem c3_heuristic_top_spec (text : String) :
    heuristicBestPair text = specHeuristicTop text := by
  have h : specScoresList text = scoresList text := by
    unfold specScoresList scoresList subjectScore
    simp only [List.countP_eq_length_filter]
  unfold heuristicBestPair specHeuristicTop
  rw [head?_sortDesc, h]

/-- C4: if the external generate call rejects, detectLanguage returns the
sentinel "unknown" and detectSubject returns "General"; both functions
absorb the failure (they are total and produce the sentinel rather than
propagating the error). -/
theorem c4_error_sentinels (text : String) :
    detectLanguage text GenResult.err = "unknown" ∧
    detectSubject text GenResult.err = "General" :=
  ⟨rfl, rfl⟩

/-- C5: in the text-input path, when the first language result is
suspicious (equal to "unknown", or containing "English", or containing
"##") exactly one further detectLanguage call is made, with the same
unchanged input, and its result replaces the first; otherwise no retry
happens.  The call trace shows the exact detection calls issued. -/
theorem c5_text_branch_retry (content : String) (o : Nat → GenResult) :
    (suspicious (detectLanguage content (o 0)) = true →
      textDetectionPhase content o =
        (detectLanguage content (o 2), detectSubject content (o 1),
         [⟨CallKind.lang, content⟩, ⟨CallKind.subj, content⟩,
          ⟨CallKind.lang, content⟩])) ∧
    (suspicious (detectLanguage content (o 0)) = false →
      textDetectionPhase content o =
        (detectLanguage content (o 0), detectSubject content (o 1),
         [⟨CallKind.lang, content⟩, ⟨CallKind.subj, content⟩])) := by
  constructor <;> intro h <;> simp [textDetectionPhase, h]

theorem c5_text_branch_retry_witness :
    (suspicious (detectLanguage "x" (GenResult.ok "English")) = true ∧
      textDetectionPhase "x" (fun _ => GenResult.ok "English") =
        (detectLanguage "x" (GenResult.ok "English"),
         detectSubject "x" (GenResult.ok "English"),
         [⟨CallKind.lang, "x"⟩, ⟨CallKind.subj, "x"⟩, ⟨CallKind.lang, "x"⟩])) ∧
    (suspicious (detectLanguage "x" (GenResult.ok "French")) = false ∧
      textDetectionPhase "x" (fun _ => GenResult.ok "French") =
        (detectLanguage "x" (GenResult.ok "French"),
         detectSubject "x" (GenResult.ok "French"),
         [⟨CallKind.lang, "x"⟩, ⟨CallKind.subj, "x"⟩])) :=
  ⟨⟨by decide, (c5_text_branch_retry "x" (fun _ => GenResult.ok "English")).1 (by decide)⟩,
   ⟨by decide, (c5_text_branch_retry "x" (fun _ => GenResult.ok "French")).2 (by decide)⟩⟩

/-- C6 counterexample: the claim says the stored detected_language equals
the detection result whenever that result differs from "unknown".  When
the external call answers whitespace, the cleaned detection result is the
empty string, which differs from "unknown", yet the endpoint stores
"English" (the code also forces English for an empty, falsy, result). -/
theorem c6_counterexample :
    (textDetectionPhase "hello" (fun _ => GenResult.ok " ")).1 ≠ "unknown" ∧
    (generateNotesText "hello" (fun _ => GenResult.ok " ")).map
        NoteData.detected_language = some "English" ∧
    some "English" ≠
      some (textDetectionPhase "hello" (fun _ => GenResult.ok " ")).1 := by
  decide

/-- C6 amended: every note record produced by the generation endpoint
carries detected_language equal to the detection result when that result
is nonempty and differs from "unknown", and equal to "English" otherwise
(empty or "unknown" result, and always for the audio-file branch); in
particular the stored detected_language is never "unknown". -/
theorem c6_note_language_policy (content : String) (o : Nat → GenResult)
    (nd : NoteData) :
    (generateNotesText content o = some nd →
      nd.detected_language ≠ "unknown" ∧
      ((textDetectionPhase content o).1 ≠ "" →
        (textDetectionPhase content o).1 ≠ "unknown" →
        nd.detected_language = (textDetectionPhase content o).1) ∧
      (((textDetectionPhase content o).1 = "" ∨
        (textDetectionPhase content o).1 = "unknown") →
        nd.detected_language = "English")) ∧
    (generateNotesAudioTranscript content o = some nd →
      nd.detected_language ≠ "unknown" ∧
      ((audioTranscriptDetectionPhase content o).1 ≠ "" →
        (audioTranscriptDetectionPhase content o).1 ≠ "unknown" →
        nd.detected_language = (audioTranscriptDetectionPhase content o).1) ∧
      (((audioTranscriptDetectionPhase content o).1 = "" ∨
        (audioTranscriptDetectionPhase content o).1 = "unknown") →
        nd.detected_language = "English")) ∧
    (generateNotesAudioFile content o = some nd →
      nd.detected_language = "English") := by
  refine ⟨?_, ?_, ?_⟩
  · intro h
    unfold generateNotesText at h
    cases ho : o 3 with
    | err =>
      rw [ho] at h
      cases h
    | ok notes0 =>
      rw [ho] at h
      cases h
      exact targetLanguageOf_spec (textDetectionPhase content o).1
  · intro h
    unfold generateNotesAudioTranscript at h
    cases ho : o 3 with
    | err =>
      rw [ho] at h
      cases h
    | ok notes0 =>
      rw [ho] at h
      cases h
      exact targetLanguageOf_spec (audioTranscriptDetectionPhase content o).1
  · intro h
    unfold generateNotesAudioFile at h
    cases ho : o 3 with
    | err =>
      rw [ho] at h
      cases h
    | ok notes0 =>
      rw [ho] at h
      cases h
      rfl

theorem c6_note_language_policy_witness :
    ({ input_type := "text", generated_notes := "Bonjour",
       detected_language := "Bonjour", detected_subject := "General",
       original_content := "hello" } : NoteData).detected_language =
      (textDetectionPhase "hello" (fun _ => GenResult.ok "Bonjour")).1 :=
  (((c6_note_language_policy "hello" (fun _ => GenResult.ok "Bonjour") _).1
      (by decide)).2.1 (by decide) (by decide))

/-- C7 counterexample: the claim says the audio-transcript pipeline is
equivalent to the text pipeline including the retry step, but the retry
exists only in the text branch.  With a first language answer "unknown"
and a retry answer "French", the text branch ends with "French" and the
audio-transcript branch with "unknown". -/
theorem c7_counterexample :
    (textDetectionPhase "x"
        (fun n => if n == 2 then GenResult.ok "French" else GenResult.ok "unknown")).1 ≠
    (audioTranscriptDetectionPhase "x"
        (fun n => if n == 2 then GenResult.ok "French" else GenResult.ok "unknown")).1 := by
  decide

/-- C7 amended: for audio input submitted as transcript text, language
and subject are detected by the same detectLanguage and detectSubject
procedure as for text input, but the retry-on-suspicious-result step runs
only in the text branch; the two pipelines agree in full whenever the
first language result is not suspicious, and their subject component
always agrees. -/
theorem c7_transcript_pipeline (content : String) (o : Nat → GenResult) :
    (audioTranscriptDetectionPhase content o).2.1 =
      (textDetectionPhase content o).2.1 ∧
    (suspicious (detectLanguage content (o 0)) = false →
      audioTranscriptDetectionPhase content o = textDetectionPhase content o) := by
  constructor
  · unfold textDetectionPhase audioTranscriptDetectionPhase
    split <;> rfl
  · intro h
    simp [textDetectionPhase, audioTranscriptDetectionPhase, h]

theorem c7_transcript_pipeline_witness :
    audioTranscriptDetectionPhase "x" (fun _ => GenResult.ok "French") =
      textDetectionPhase "x" (fun _ => GenResult.ok "French") :=
  (c7_transcript_pipeline "x" (fun _ => GenResult.ok "French")).2 (by decide)

/-- C8 counterexample: the static keyword table has no entry for the
taxonomy label "General", contradicting the claim that every taxonomy
label, General included, maps to a keyword list. -/
theorem c8_counterexample : "General" ∉ keywordMap.map Prod.fst := by
  decide

/-- C8 amended: the keyword table maps exactly the 14 non-General
taxonomy labels, in taxonomy declaration order, to their ordered keyword
lists; "General" has no entry. -/
theorem c8_keyword_table_keys :
    keywordMap.map Prod.fst = allowedSubjects.filter (fun s => s != "General") := by
  decide

/-- C9 counterexample: on a blank input string the two detectors do not
return their failure sentinels when the external call succeeds with a
recognizable answer: detectLanguage forwards the cleaned response and
detectSubject follows the model vote. -/
theorem c9_counterexample :
    detectLanguage "" (GenResult.ok "French") = "French" ∧
    detectSubject "" (GenResult.ok "Physics") = "Physics" ∧
    "French" ≠ "unknown" ∧ "Physics" ≠ "General" := by
  decide

/-- C9 amended: on a blank input string both detectors are total (no
exception escapes); they return their failure sentinels whenever the
external call fails, and detectSubject additionally returns "General"
for every successful response that maps to no taxonomy label, because
the heuristic scores of the empty text are all zero. -/
theorem c9_blank_input (resp : String) :
    detectLanguage "" GenResult.err = "unknown" ∧
    detectSubject "" GenResult.err = "General" ∧
    (modelMappedOf (normalizeDetected (trimStr resp)) = none →
      detectSubject "" (GenResult.ok resp) = "General") := by
  refine ⟨rfl, rfl, fun h => ?_⟩
  show detectSubjectOk "" resp = "General"
  unfold detectSubjectOk
  rw [h]
  have h0 : (heuristicBestPair "").2 = 0 := by decide
  rw [h0]
  rfl

theorem c9_blank_input_witness :
    detectSubject "" (GenResult.ok "") = "General" :=
  (c9_blank_input "").2.2 (by decide)

/-- C10: the heuristic top label is never "General", because the keyword
table defines lists only for the other 14 labels; consequently a
successful detectSubject call returns "General" only when the model vote
normalizes to "General" itself, or when there is no model label and the
heuristic top score is zero. -/
theorem c10_heuristic_never_general (text : String) :
    (heuristicBestPair text).1 ≠ "General" ∧
    (∀ resp, detectSubjectOk text resp = "General" →
      modelMappedOf (normalizeDetected (trimStr resp)) = some "General" ∨
      (modelMappedOf (normalizeDetected (trimStr resp)) = none ∧
        (heuristicBestPair text).2 = 0)) := by
  have hng : (heuristicBestPair text).1 ≠ "General" := by
    intro hg
    exact general_not_key (hg ▸ heuristicTop_mem_keys text)
  refine ⟨hng, fun resp h => ?_⟩
  unfold detectSubjectOk at h
  obtain ⟨b, hbp⟩ : ∃ b, heuristicBestPair text = b := ⟨_, rfl⟩
  obtain ⟨sc, hsc⟩ : ∃ sc, scoresList text = sc := ⟨_, rfl⟩
  rw [hbp] at hng h ⊢
  rw [hsc] at h
  split at h
  · rename_i m hm
    split at h
    · exact absurd h hng
    · exact Or.inl (by rw [hm, h])
  · rename_i hm
    split at h
    · exact absurd h hng
    · rename_i hc
      exact Or.inr ⟨hm, by omega⟩

theorem c10_heuristic_never_general_witness :
    modelMappedOf (normalizeDetected (trimStr "")) = some "General" ∨
    (modelMappedOf (normalizeDetected (trimStr "")) = none ∧
      (heuristicBestPair "").2 = 0) :=
  (c10_heuristic_never_general "").2 "" (by decide)

end NotesApp
